import Mathlib

/-!
Verification development for the real-time asteroid chat subsystem
(backend/services/socketService.js, backend/routes/chat.js, and the
ChatMessage mongoose model).

The embedding is shallow: the mongoose document collection becomes a
`List ChatMessage`, socket/HTTP handlers become pure functions from their
inputs (plus the relevant store / room state) to an `Except`-style result
or a list of emitted events, and `Date` timestamps become `Nat`.
String fields that may be absent on the wire (JS `undefined`) are
`Option String`; `Option.isFalsyStr` mirrors a JS falsiness test on such
a field (absent or empty string).
-/

namespace AsteroidChat

/-- Executable model of the JS `String.prototype.trim()`: drop whitespace
from both ends of the string. -/
def jsTrim (s : String) : String :=
  ⟨((s.data.dropWhile Char.isWhitespace).reverse.dropWhile
      Char.isWhitespace).reverse⟩

/-- JS falsiness of an optional string value: `undefined`/`null` or `""`. -/
def isFalsyStr : Option String → Bool
  | none => true
  | some s => s == ""

/-- A reaction subdocument: `{ emoji, userId, createdAt }`.
`emoji` is `Option String` because the socket handler pushes the
client-supplied `emoji` field without validating its presence. -/
structure Reaction where
  emoji : Option String
  userId : Nat
  createdAt : Nat
  deriving DecidableEq, Repr

/-- A ChatMessage document (the fields the chat handlers read or write).
`createdAt` is the server-assigned timestamp (mongoose `timestamps: true`);
`messageType` defaults to "text"; `deleted` defaults to `false`. -/
structure ChatMessage where
  id : Nat
  asteroidId : String
  neoReferenceId : String
  asteroidName : String
  userId : Nat
  username : String
  userAvatar : Option String
  message : String
  messageType : String
  replyTo : Option Nat
  reactions : List Reaction
  deleted : Bool
  deletedAt : Option Nat
  createdAt : Nat
  deriving DecidableEq, Repr

/-- The reaction update performed identically by the socket `addReaction`
handler and the REST reaction route: first every existing reaction of that
user is filtered out, then the new reaction is pushed at the end. -/
def applyReaction (reactions : List Reaction) (userId : Nat)
    (emoji : Option String) (now : Nat) : List Reaction :=
  (reactions.filter (fun r => r.userId != userId)) ++
    [{ emoji := emoji, userId := userId, createdAt := now }]

/-- Mark every stored message with the given id as deleted, with the
deletion timestamp, leaving all other messages untouched (the in-place
`message.deleted = true; message.deletedAt = new Date(); save()`). -/
def markDeleted (store : List ChatMessage) (messageId : Nat) (now : Nat) :
    List ChatMessage :=
  store.map (fun m =>
    if m.id == messageId then { m with deleted := true, deletedAt := some now }
    else m)

/-- Replace the reaction list of every stored message with the given id
(the in-place `message.reactions = ...; message.save()`). -/
def setReactions (store : List ChatMessage) (messageId : Nat)
    (rs : List Reaction) : List ChatMessage :=
  store.map (fun m =>
    if m.id == messageId then { m with reactions := rs } else m)

/-- `ChatMessage.findById`: look a message up by id (first match). -/
def findById : List ChatMessage → Nat → Option ChatMessage
  | [], _ => none
  | m :: rest, messageId =>
    if m.id == messageId then some m else findById rest messageId

/-- Insertion step for the `sort({ createdAt: -1 })` stage: place `m`
after every already-placed message with a `createdAt` at least as large. -/
def insertDesc (m : ChatMessage) : List ChatMessage → List ChatMessage
  | [] => [m]
  | x :: xs =>
    if m.createdAt ≤ x.createdAt then x :: insertDesc m xs
    else m :: x :: xs

/-- Sort a message list in descending `createdAt` order. -/
def sortDesc (l : List ChatMessage) : List ChatMessage :=
  l.foldr insertDesc []

/-- The query filter shared by `getChatHistory` and the REST history route:
`{ asteroidId, deleted: false, messageType: { $ne: 'system' } }`, plus the
optional `createdAt: { $lt: before }` cursor. -/
def historyFilter (asteroidId : String) (before : Option Nat)
    (m : ChatMessage) : Bool :=
  m.asteroidId == asteroidId && m.deleted == false &&
    m.messageType != "system" &&
    (match before with
     | none => true
     | some b => m.createdAt < b)

/-- `ChatMessage.getChatHistory(asteroidId, limit, beforeDate)`: filter,
sort by `createdAt` descending, and cap the result at `limit` documents.
The REST history route builds the identical query inline. -/
def getChatHistory (store : List ChatMessage) (asteroidId : String)
    (limit : Nat) (before : Option Nat) : List ChatMessage :=
  ((sortDesc (store.filter (historyFilter asteroidId before))).take limit)

/-- Both delivery paths call `.reverse()` on the query result before
handing it to the client, so messages arrive ascending by creation time. -/
def deliveredHistory (store : List ChatMessage) (asteroidId : String)
    (limit : Nat) (before : Option Nat) : List ChatMessage :=
  (getChatHistory store asteroidId limit before).reverse

/-- The message list sent by the `joinAsteroid` handler:
`ChatMessage.getChatHistory(asteroidId, 50)` followed by `.reverse()`. -/
def socketJoinHistory (store : List ChatMessage) (asteroidId : String) :
    List ChatMessage :=
  (getChatHistory store asteroidId 50 none).reverse

/-- The message list returned by `GET /api/chat/:asteroidId/messages`:
the client may supply `limit` (default 50) and a `before` cursor; the
supplied limit is used as-is, without clamping. -/
def restGetMessages (store : List ChatMessage) (asteroidId : String)
    (limitParam : Option Nat) (before : Option Nat) : List ChatMessage :=
  (getChatHistory store asteroidId (limitParam.getD 50) before).reverse

/-- `message || 'fallback'` on an optional string field. -/
def orFalsy (s : Option String) (d : String) : String :=
  match s with
  | none => d
  | some v => if v == "" then d else v

/-- The socket `sendMessage` handler (validation then persistence).
Inputs mirror the event payload `{asteroidId, neoReferenceId, asteroidName,
message, replyTo}`; `socketUserId` is `none` for a guest connection.
`save` gives the outcome of the n-th `save()` attempt; the handler performs
exactly one attempt. `.error s` is the `chatError` emitted to the sender
(the interpolated mongoose detail in the save-failure message is elided);
`.ok m` is the stored message that is then broadcast as `newMessage`. -/
def sendMessage (socketUserId : Option Nat) (username : String)
    (userAvatar : Option String) (asteroidId neoReferenceId : Option String)
    (asteroidName : Option String) (message : Option String)
    (replyTo : Option Nat) (now newId : Nat) (save : Nat → Bool) :
    Except String ChatMessage :=
  if isFalsyStr asteroidId then .error "Asteroid ID is missing"
  else if isFalsyStr neoReferenceId then .error "Neo Reference ID is missing"
  else if isFalsyStr message || jsTrim (message.getD "") == "" then
    .error "Message cannot be empty"
  else if (message.getD "").length > 2000 then
    .error "Message too long (max 2000 characters)"
  else
    match socketUserId with
    | none => .error "Please login to send messages"
    | some uid =>
      let doc : ChatMessage :=
        { id := newId
          asteroidId := asteroidId.getD ""
          neoReferenceId := neoReferenceId.getD ""
          asteroidName := orFalsy asteroidName "Unknown"
          userId := uid
          username := username
          userAvatar := userAvatar
          message := jsTrim (message.getD "")
          messageType := "text"
          replyTo := replyTo
          reactions := []
          deleted := false
          deletedAt := none
          createdAt := now }
      if save 0 then .ok doc else .error "Failed to send message"

/-- The socket `deleteMessage` handler. `.error` paths return before any
write, so the store is unchanged there; on success the result is the store
with the message marked deleted (then `messageDeleted` is broadcast). -/
def deleteMessage (socketUserId : Option Nat) (messageId : Nat)
    (store : List ChatMessage) (now : Nat) :
    Except String (List ChatMessage) :=
  match socketUserId with
  | none => .error "Please login to delete messages"
  | some uid =>
    match findById store messageId with
    | none => .error "Message not found"
    | some m =>
      if m.userId != uid then .error "You can only delete your own messages"
      else .ok (markDeleted store messageId now)

/-- The socket `addReaction` handler. Note: there is no check on `emoji`;
whatever the client sent (possibly nothing) is stored. On success returns
the updated store and the reaction list broadcast in `reactionUpdated`. -/
def socketAddReaction (socketUserId : Option Nat) (messageId : Nat)
    (emoji : Option String) (store : List ChatMessage) (now : Nat) :
    Except String (List ChatMessage × List Reaction) :=
  match socketUserId with
  | none => .error "Please login to add reactions"
  | some uid =>
    match findById store messageId with
    | none => .error "Message not found"
    | some m =>
      let rs := applyReaction m.reactions uid emoji now
      .ok (setReactions store messageId rs, rs)

/-- The REST reaction route `POST /messages/:messageId/reactions`.
Unlike the socket handler it rejects a falsy `emoji` with a 400 before
touching the store; `auth` middleware guarantees a user id. -/
def restAddReaction (userId : Nat) (messageId : Nat)
    (emoji : Option String) (store : List ChatMessage) (now : Nat) :
    Except String (List ChatMessage × List Reaction) :=
  if isFalsyStr emoji then .error "Emoji is required"
  else
    match findById store messageId with
    | none => .error "Message not found"
    | some m =>
      let rs := applyReaction m.reactions userId emoji now
      .ok (setReactions store messageId rs, rs)

/-! ## Rooms, presence and emitted events

Room membership lives in `io.sockets.adapter.rooms`; each socket also
carries `currentRoom`. The model keys rooms directly by the topic id (the
code names the room `asteroid:` followed by the topic id and its
leave-others loop touches exactly the asteroid rooms, which are the only
rooms modelled here). Connections are identified by `Nat`. -/

/-- The delivery scope of an emitted event: `socket.emit` (one connection),
`socket.to(room).emit` (every member of the room except the sender), or
`io.to(room).emit` (every member of the room). -/
inductive Target where
  | toConn (c : Nat)
  | toRoomExcept (room : String) (c : Nat)
  | toRoom (room : String)
  deriving DecidableEq, Repr

/-- An emitted event: its delivery scope, its name, and — for
`activeUsers` events — the occupancy count it carries. -/
structure Evt where
  target : Target
  name : String
  count : Option Nat
  deriving DecidableEq, Repr

/-- The room an event is delivered to, if it is room-scoped. -/
def eventRoom (e : Evt) : Option String :=
  match e.target with
  | .toConn _ => none
  | .toRoomExcept r _ => some r
  | .toRoom r => some r

/-- The occupancy counts carried by the `activeUsers` events of a batch. -/
def occupancyCounts (evts : List Evt) : List Nat :=
  evts.filterMap (fun e => if e.name == "activeUsers" then e.count else none)

/-- Process-local room state: membership per room and the `currentRoom`
recorded on each socket. -/
structure RoomState where
  members : String → List Nat
  currentRoom : Nat → Option String

/-- The `joinAsteroid` handler. In order: leave every other asteroid room,
join the target room, record `currentRoom`, emit the history to the joiner
only, announce the join to the other members, and broadcast `activeUsers`
with the size of the room read live — after the join. -/
def joinAsteroid (s : RoomState) (c : Nat) (topic : String) :
    RoomState × List Evt :=
  let afterLeave : String → List Nat := fun r =>
    if r = topic then s.members r else (s.members r).filter (fun x => x ≠ c)
  let afterJoin : String → List Nat := fun r =>
    if r = topic then
      (if c ∈ afterLeave topic then afterLeave topic else afterLeave topic ++ [c])
    else afterLeave r
  let s' : RoomState :=
    { members := afterJoin
      currentRoom := fun x => if x = c then some topic else s.currentRoom x }
  (s',
   [{ target := .toConn c, name := "chatHistory", count := none },
    { target := .toRoomExcept topic c, name := "userJoined", count := none },
    { target := .toRoom topic, name := "activeUsers",
      count := some (afterJoin topic).length }])

/-- The `leaveAsteroid` handler: a no-op without a current room; otherwise
it announces the leave and broadcasts `activeUsers` — reading the room size
while the leaver is still a member — and only then leaves the room and
clears `currentRoom`. -/
def leaveAsteroid (s : RoomState) (c : Nat) : RoomState × List Evt :=
  match s.currentRoom c with
  | none => (s, [])
  | some r =>
    let evts :=
      [{ target := .toRoomExcept r c, name := "userLeft", count := none },
       { target := Target.toRoom r, name := "activeUsers",
         count := some (s.members r).length }]
    let s' : RoomState :=
      { members := fun r' =>
          if r' = r then (s.members r).filter (fun x => x ≠ c) else s.members r'
        currentRoom := fun x => if x = c then none else s.currentRoom x }
    (s', evts)

/-- The `typing` handler: fan out `userTyping` to the other members of the
current room, but only for an authenticated connection with a room. -/
def typingEvents (currentRoom : Option String) (socketUserId : Option Nat)
    (c : Nat) : List Evt :=
  match currentRoom, socketUserId with
  | some r, some _ => [{ target := .toRoomExcept r c, name := "userTyping", count := none }]
  | _, _ => []

/-- The `stopTyping` handler, same guard as `typing`. -/
def stopTypingEvents (currentRoom : Option String)
    (socketUserId : Option Nat) (c : Nat) : List Evt :=
  match currentRoom, socketUserId with
  | some r, some _ => [{ target := .toRoomExcept r c, name := "userStoppedTyping", count := none }]
  | _, _ => []

/-- The events emitted by the `sendMessage` handler around its result: a
`chatError` to the sender alone on failure, and on success a single
`newMessage` broadcast to the room of the stored message — nothing else. -/
def sendMessageEvents (c : Nat) (result : Except String ChatMessage) :
    List Evt :=
  match result with
  | .error _ => [{ target := .toConn c, name := "chatError", count := none }]
  | .ok m => [{ target := .toRoom m.asteroidId, name := "newMessage", count := none }]

/-! ## Concrete fixtures used to evaluate the model on closed inputs -/

/-- A stored text message by user 5 on topic "a1". -/
def mA : ChatMessage :=
  { id := 0, asteroidId := "a1", neoReferenceId := "n1", asteroidName := "A",
    userId := 5, username := "alice", userAvatar := none, message := "hello",
    messageType := "text", replyTo := none, reactions := [], deleted := false,
    deletedAt := none, createdAt := 10 }

/-- A soft-deleted message by user 5 on topic "a1". -/
def mDel : ChatMessage :=
  { id := 1, asteroidId := "a1", neoReferenceId := "n1", asteroidName := "A",
    userId := 5, username := "alice", userAvatar := none, message := "gone",
    messageType := "text", replyTo := none, reactions := [], deleted := true,
    deletedAt := some 12, createdAt := 11 }

/-- A system-type message on topic "a1". -/
def mSys : ChatMessage :=
  { id := 2, asteroidId := "a1", neoReferenceId := "n1", asteroidName := "A",
    userId := 0, username := "sys", userAvatar := none, message := "notice",
    messageType := "system", replyTo := none, reactions := [],
    deleted := false, deletedAt := none, createdAt := 12 }

/-- A second ordinary message, later than `mA`, by user 6. -/
def mB : ChatMessage :=
  { id := 3, asteroidId := "a1", neoReferenceId := "n1", asteroidName := "A",
    userId := 6, username := "bob", userAvatar := none, message := "yo",
    messageType := "text", replyTo := none, reactions := [], deleted := false,
    deletedAt := none, createdAt := 20 }

/-- The i-th of a batch of ordinary messages on topic "a1". -/
def mkMsg (i : Nat) : ChatMessage :=
  { id := i, asteroidId := "a1", neoReferenceId := "n1", asteroidName := "A",
    userId := 0, username := "u", userAvatar := none, message := "m",
    messageType := "text", replyTo := none, reactions := [], deleted := false,
    deletedAt := none, createdAt := i }

/-- 51 ordinary messages on topic "a1". -/
def bigStore : List ChatMessage := (List.range 51).map mkMsg

/-- The empty room state. -/
def rs0 : RoomState :=
  { members := fun _ => [], currentRoom := fun _ => none }

/-- A room state where connections 1 and 2 are members of room "r0" and
connection 1 has "r0" as its current room. -/
def rs1 : RoomState :=
  { members := fun r => if r = "r0" then [1, 2] else []
    currentRoom := fun x => if x = 1 then some "r0" else none }

/-! ## Reaction lemmas -/

theorem filter_user_applyReaction (l : List Reaction) (u : Nat)
    (e : Option String) (t : Nat) :
    (applyReaction l u e t).filter (fun r => r.userId == u) =
      [{ emoji := e, userId := u, createdAt := t }] := by
  unfold applyReaction
  rw [List.filter_append]
  have h1 : (l.filter (fun r => r.userId != u)).filter
      (fun r => r.userId == u) = [] := by
    rw [List.filter_eq_nil_iff]
    intro a ha
    have := (List.mem_filter.mp ha).2
    simp only [bne_iff_ne, ne_eq] at this
    simp [this]
  rw [h1]
  simp

theorem countP_user_applyReaction_self (l : List Reaction) (u : Nat)
    (e : Option String) (t : Nat) :
    (applyReaction l u e t).countP (fun r => r.userId == u) = 1 := by
  have := congrArg List.length (filter_user_applyReaction l u e t)
  simpa [List.countP_eq_length_filter] using this

theorem countP_user_applyReaction_other (l : List Reaction) (u v : Nat)
    (e : Option String) (t : Nat) (huv : u ≠ v) :
    (applyReaction l v e t).countP (fun r => r.userId == u) ≤
      l.countP (fun r => r.userId == u) := by
  unfold applyReaction
  rw [List.countP_append]
  have hvu : (v == u) = false := beq_eq_false_iff_ne.mpr (Ne.symm huv)
  have h2 : List.countP (fun r => r.userId == u)
      [({ emoji := e, userId := v, createdAt := t } : Reaction)] = 0 := by
    simp [List.countP, List.countP.go, hvu]
  rw [h2, Nat.add_zero]
  exact (List.filter_sublist l).countP_le _

theorem uniqueInv_applyReaction (l : List Reaction) (v : Nat)
    (e : Option String) (t : Nat)
    (hinv : ∀ u, l.countP (fun r => r.userId == u) ≤ 1) :
    ∀ u, (applyReaction l v e t).countP (fun r => r.userId == u) ≤ 1 := by
  intro u
  by_cases huv : u = v
  · subst huv
    exact le_of_eq (countP_user_applyReaction_self l u e t)
  · exact le_trans (countP_user_applyReaction_other l u v e t huv) (hinv u)

/-- C6 (amended): the live channel always requests history with limit 50,
so a join delivers at most 50 messages; the REST route defaults to 50 only
when the client supplies no limit — the supplied value is used unclamped,
so the REST response is bounded by the client-supplied limit instead. -/
theorem c6_history_limit (store : List ChatMessage) (aid : String)
    (limitParam : Option Nat) (before : Option Nat) :
    (socketJoinHistory store aid).length ≤ 50
    ∧ (restGetMessages store aid limitParam before).length ≤
        limitParam.getD 50 := by
  constructor
  · unfold socketJoinHistory getChatHistory
    rw [List.length_reverse, List.length_take]
    omega
  · unfold restGetMessages getChatHistory
    rw [List.length_reverse, List.length_take]
    omega

/-- Counterexample to C6 as stated: with 51 stored messages and a
client-supplied limit of 51, the REST history returns 51 messages, more
than the configured default maximum of 50. -/
theorem c6_counterexample :
    (restGetMessages bigStore "a1" (some 51) none).length = 51
    ∧ ¬((restGetMessages bigStore "a1" (some 51) none).length ≤ 50) := by
  constructor
  · decide
  · decide

/-- C7 (amended): a failing save in `sendMessage` is never retried — with
valid input, the handler succeeds exactly when the first save attempt
succeeds, and a first-attempt failure is immediately surfaced as a
`chatError` scoped to the sender (no other event is emitted). -/
theorem c7_no_retry (uid : Nat) (username : String)
    (avatar : Option String) (aid nref : String) (name : Option String)
    (body : String) (replyTo : Option Nat) (now newId c : Nat)
    (save : Nat → Bool) (haid : aid ≠ "") (hnref : nref ≠ "")
    (hne : jsTrim body ≠ "") (hlen : body.length ≤ 2000) :
    (save 0 = false →
      sendMessage (some uid) username avatar (some aid) (some nref) name
          (some body) replyTo now newId save =
        .error "Failed to send message"
      ∧ sendMessageEvents c
          (sendMessage (some uid) username avatar (some aid) (some nref)
            name (some body) replyTo now newId save) =
          [{ target := .toConn c, name := "chatError", count := none }])
    ∧ (save 0 = true →
        ∃ m, sendMessage (some uid) username avatar (some aid) (some nref)
          name (some body) replyTo now newId save = .ok m) := by
  have haid' : isFalsyStr (some aid) = false := by
    simpa [isFalsyStr] using haid
  have hnref' : isFalsyStr (some nref) = false := by
    simpa [isFalsyStr] using hnref
  have hbody : isFalsyStr (some body) = false := by
    simp only [isFalsyStr]
    refine beq_eq_false_iff_ne.mpr ?_
    intro h0
    exact hne (by rw [h0]; rfl)
  have htrim : (jsTrim body == "") = false := beq_eq_false_iff_ne.mpr hne
  have hlen' : ¬((2000:Nat) < body.length) := by omega
  constructor
  · intro hsave
    have heq : sendMessage (some uid) username avatar (some aid) (some nref)
        name (some body) replyTo now newId save =
        .error "Failed to send message" := by
      unfold sendMessage
      rw [haid', hnref']
      simp [hbody, htrim, hlen', hsave]
    exact ⟨heq, by rw [heq]; rfl⟩
  · intro hsave
    refine ⟨{ id := newId, asteroidId := aid, neoReferenceId := nref,
              asteroidName := orFalsy name "Unknown", userId := uid,
              username := username, userAvatar := avatar,
              message := jsTrim body, messageType := "text",
              replyTo := replyTo, reactions := [], deleted := false,
              deletedAt := none, createdAt := now }, ?_⟩
    unfold sendMessage
    rw [haid', hnref']
    simp [hbody, htrim, hlen', hsave]

/-- Witness for C7: with the first save attempt failing the error is
surfaced at once to connection 4; with it succeeding the send goes
through. -/
theorem c7_no_retry_witness :
    (sendMessage (some 7) "alice" none (some "a1") (some "n1") none
        (some "hello") none 3 9 (fun _ => false) =
      .error "Failed to send message"
      ∧ sendMessageEvents 4
          (sendMessage (some 7) "alice" none (some "a1") (some "n1") none
            (some "hello") none 3 9 (fun _ => false)) =
          [{ target := .toConn 4, name := "chatError", count := none }])
    ∧ (∃ m, sendMessage (some 7) "alice" none (some "a1") (some "n1") none
        (some "hello") none 3 9 (fun _ => true) = .ok m) := by
  constructor
  · exact (c7_no_retry 7 "alice" none "a1" "n1" none "hello" none 3 9 4
      (fun _ => false) (by decide) (by decide) (by decide) (by decide)).1 rfl
  · exact (c7_no_retry 7 "alice" none "a1" "n1" none "hello" none 3 9 4
      (fun _ => true) (by decide) (by decide) (by decide) (by decide)).2 rfl

/-- Counterexample to C7 as stated: the first save attempt fails while a
second attempt would succeed, yet the error is surfaced immediately — the
handler never retries, contradicting "retried at most once transparently,
and only if the retry also fails is the error surfaced". -/
theorem c7_counterexample :
    ((fun n => n == 1) 1 : Bool) = true
    ∧ sendMessage (some 7) "alice" none (some "a1") (some "n1") none
        (some "hello") none 3 9 (fun n => n == 1) =
      .error "Failed to send message" := by
  exact ⟨by decide, rfl⟩

/-- C8 (amended): on the REST channel a missing (or empty) emoji is
rejected with a 400 validation error to the requester and nothing is
stored; the socket handler performs no emoji check — with the message
present it stores a reaction whose emoji field is absent and answers with
the updated reaction list that is then broadcast. -/
theorem c8_missing_emoji (u mid now : Nat) (store : List ChatMessage)
    (m : ChatMessage) (hfind : findById store mid = some m) :
    restAddReaction u mid none store now = .error "Emoji is required"
    ∧ restAddReaction u mid (some "") store now = .error "Emoji is required"
    ∧ socketAddReaction (some u) mid none store now =
        .ok (setReactions store mid (applyReaction m.reactions u none now),
             applyReaction m.reactions u none now)
    ∧ ({ emoji := none, userId := u, createdAt := now } : Reaction) ∈
        applyReaction m.reactions u none now := by
  refine ⟨rfl, by simp [restAddReaction, isFalsyStr], ?_, ?_⟩
  · simp [socketAddReaction, hfind]
  · unfold applyReaction
    exact List.mem_append_right _ (List.mem_singleton.mpr rfl)

/-- Witness for C8: evaluated on a one-message store. -/
theorem c8_missing_emoji_witness :
    restAddReaction 1 0 none [mA] 5 = .error "Emoji is required"
    ∧ restAddReaction 1 0 (some "") [mA] 5 = .error "Emoji is required"
    ∧ socketAddReaction (some 1) 0 none [mA] 5 =
        .ok (setReactions [mA] 0 (applyReaction mA.reactions 1 none 5),
             applyReaction mA.reactions 1 none 5)
    ∧ ({ emoji := none, userId := 1, createdAt := 5 } : Reaction) ∈
        applyReaction mA.reactions 1 none 5 :=
  c8_missing_emoji 1 0 5 [mA] mA (by decide)

/-- Counterexample to C8 as stated: a socket `addReaction` with no emoji
from an authenticated user on an existing message does not fail — it
stores a reaction with no emoji and succeeds, unlike the REST route which
rejects the same request. -/
theorem c8_counterexample :
    socketAddReaction (some 1) 0 none [mA] 5 =
      .ok ([{ mA with reactions :=
               [{ emoji := none, userId := 1, createdAt := 5 }] }],
           [{ emoji := none, userId := 1, createdAt := 5 }])
    ∧ restAddReaction 1 0 none [mA] 5 = .error "Emoji is required" := by
  exact ⟨rfl, rfl⟩

end AsteroidChat

namespace AsteroidChat

/-! ## Claim theorems -/

/-- C1: after any sequence of reaction calls starting from the empty
reaction list of a fresh message, each userId owns at most one reaction
entry; and two consecutive calls by the same user leave exactly one entry
for that user, carrying the emoji and timestamp of the second call. -/
theorem c1_reaction_unique :
    (∀ (calls : List (Nat × Option String × Nat)) (u : Nat),
      ((calls.foldl
          (fun rs call => applyReaction rs call.1 call.2.1 call.2.2)
          []).countP (fun r => r.userId == u)) ≤ 1)
    ∧ (∀ (rs : List Reaction) (u : Nat) (e₁ e₂ : Option String) (t₁ t₂ : Nat),
      (applyReaction (applyReaction rs u e₁ t₁) u e₂ t₂).filter
          (fun r => r.userId == u) =
        [{ emoji := e₂, userId := u, createdAt := t₂ }]) := by
  constructor
  · intro calls
    have main : ∀ (cs : List (Nat × Option String × Nat)) (l : List Reaction),
        (∀ u, l.countP (fun r => r.userId == u) ≤ 1) →
        ∀ u, ((cs.foldl
            (fun rs call => applyReaction rs call.1 call.2.1 call.2.2)
            l).countP (fun r => r.userId == u)) ≤ 1 := by
      intro cs
      induction cs with
      | nil => intro l hinv u; exact hinv u
      | cons c cs ih =>
        intro l hinv u
        exact ih (applyReaction l c.1 c.2.1 c.2.2)
          (uniqueInv_applyReaction l c.1 c.2.1 c.2.2 hinv) u
    exact main calls [] (by intro u; simp)
  · intro rs u e₁ e₂ t₁ t₂
    exact filter_user_applyReaction _ u e₂ t₂

/-- C3: for a send naming a real topic, the handler fails with an error
scoped to the sender — storing nothing — whenever the sender is anonymous,
the trimmed body is empty, or the body exceeds 2000 characters; otherwise
(with the one save attempt succeeding) the trimmed body is persisted under
the sender's id with the server-assigned timestamp and id. -/
theorem c3_send_validation (uid : Option Nat) (username : String)
    (avatar : Option String) (aid nref : String) (name : Option String)
    (body : String) (replyTo : Option Nat) (now newId : Nat)
    (save : Nat → Bool) (haid : aid ≠ "") (hnref : nref ≠ "") :
    ((uid = none ∨ jsTrim body = "" ∨ body.length > 2000) →
      ∃ e, sendMessage uid username avatar (some aid) (some nref) name
        (some body) replyTo now newId save = .error e)
    ∧ (∀ u, uid = some u → jsTrim body ≠ "" → body.length ≤ 2000 →
        save 0 = true →
      ∃ m, sendMessage uid username avatar (some aid) (some nref) name
          (some body) replyTo now newId save = .ok m ∧
        m.message = jsTrim body ∧ m.userId = u ∧ m.createdAt = now ∧
        m.id = newId) := by
  have haid' : isFalsyStr (some aid) = false := by
    simpa [isFalsyStr] using haid
  have hnref' : isFalsyStr (some nref) = false := by
    simpa [isFalsyStr] using hnref
  constructor
  · intro h
    unfold sendMessage
    rw [haid', hnref']
    simp only [Bool.false_eq_true, if_false]
    split
    · exact ⟨_, rfl⟩
    · split
      · exact ⟨_, rfl⟩
      · rcases h with h | h | h
        · subst h; exact ⟨_, rfl⟩
        · rename_i hc _
          exact absurd (by simp [h]) hc
        · rename_i _ hc
          exact absurd (by simpa using h) hc
  · intro u hu hne hlen hsave
    subst hu
    have hbody : isFalsyStr (some body) = false := by
      simp only [isFalsyStr]
      refine beq_eq_false_iff_ne.mpr ?_
      intro h0
      exact hne (by rw [h0]; rfl)
    have htrim : (jsTrim body == "") = false := beq_eq_false_iff_ne.mpr hne
    have hlen' : ¬((2000:Nat) < body.length) := by omega
    refine ⟨{ id := newId, asteroidId := aid, neoReferenceId := nref,
              asteroidName := orFalsy name "Unknown", userId := u,
              username := username, userAvatar := avatar,
              message := jsTrim body, messageType := "text",
              replyTo := replyTo, reactions := [], deleted := false,
              deletedAt := none, createdAt := now },
            ?_, rfl, rfl, rfl, rfl⟩
    unfold sendMessage
    rw [haid', hnref']
    simp [hbody, htrim, hlen', hsave]

/-- Witness for C3: a guest send of "hi" fails; an authenticated send of
" hi " from user 7 is stored with the trimmed body "hi". -/
theorem c3_send_validation_witness :
    (∃ e, sendMessage none "Guest" none (some "a1") (some "n1") none
      (some "hi") none 3 9 (fun _ => true) = .error e)
    ∧ (∃ m, sendMessage (some 7) "alice" none (some "a1") (some "n1") none
        (some " hi ") none 3 9 (fun _ => true) = .ok m ∧
      m.message = jsTrim " hi " ∧ m.userId = 7 ∧ m.createdAt = 3 ∧
      m.id = 9) := by
  constructor
  · exact (c3_send_validation none "Guest" none "a1" "n1" none "hi" none 3 9
      (fun _ => true) (by decide) (by decide)).1 (Or.inl rfl)
  · exact (c3_send_validation (some 7) "alice" none "a1" "n1" none " hi "
      none 3 9 (fun _ => true) (by decide) (by decide)).2 7 rfl
      (by decide) (by decide) rfl

/-! ## Soft-delete lemmas -/

theorem mem_markDeleted (store : List ChatMessage) (mid now : Nat) :
    ∀ x ∈ markDeleted store mid now, x.id = mid →
      x.deleted = true ∧ x.deletedAt = some now := by
  intro x hx hid
  rcases List.mem_map.mp hx with ⟨y, _, hxy⟩
  by_cases h : (y.id == mid) = true
  · rw [if_pos h] at hxy
    rw [← hxy]
    exact ⟨rfl, rfl⟩
  · rw [if_neg h] at hxy
    rw [← hxy] at hid
    exact absurd (beq_iff_eq.mpr hid) h

theorem findById_markDeleted (store : List ChatMessage) (mid now : Nat)
    (m : ChatMessage) (h : findById store mid = some m) :
    findById (markDeleted store mid now) mid =
      some { m with deleted := true, deletedAt := some now } := by
  induction store with
  | nil => simp [findById] at h
  | cons x xs ih =>
    by_cases hx : (x.id == mid) = true
    · have hm : x = m := by
        have h' := h
        unfold findById at h'
        rw [if_pos hx] at h'
        exact Option.some.inj h'
      subst hm
      unfold markDeleted
      simp only [List.map_cons]
      rw [if_pos hx]
      unfold findById
      rw [if_pos hx]
    · have hxs : findById xs mid = some m := by
        have h' := h
        unfold findById at h'
        rwa [if_neg hx] at h'
      unfold markDeleted
      simp only [List.map_cons]
      rw [if_neg hx]
      unfold findById
      rw [if_neg hx]
      exact ih hxs

/-- C4: with the target message present, a delete request by a non-author
fails with the permission error (the ownership check is the only state
check, so this holds even on an already-deleted message, and the error
path returns before any write); a delete by the author marks the message
deleted with a timestamp, and an authoring retry on the already-deleted
message succeeds again with the flag still set. -/
theorem c4_delete_owner_only (uid mid now : Nat) (store : List ChatMessage)
    (m : ChatMessage) (hfind : findById store mid = some m) :
    (m.userId ≠ uid →
      deleteMessage (some uid) mid store now =
        .error "You can only delete your own messages")
    ∧ (m.userId = uid →
      deleteMessage (some uid) mid store now =
        .ok (markDeleted store mid now)
      ∧ (∀ x ∈ markDeleted store mid now, x.id = mid →
          x.deleted = true ∧ x.deletedAt = some now)
      ∧ ∀ now₂, ∃ store₂,
          deleteMessage (some uid) mid (markDeleted store mid now) now₂ =
            .ok store₂
          ∧ ∀ x ∈ store₂, x.id = mid → x.deleted = true) := by
  constructor
  · intro hne
    have hb : (m.userId != uid) = true := bne_iff_ne.mpr hne
    simp [deleteMessage, hfind, hb]
  · intro heq
    have hb : (m.userId != uid) = false := by
      simp [bne_iff_ne, heq]
    refine ⟨?_, mem_markDeleted store mid now, ?_⟩
    · simp [deleteMessage, hfind, hb]
    · intro now₂
      have hfind₂ := findById_markDeleted store mid now m hfind
      refine ⟨markDeleted (markDeleted store mid now) mid now₂, ?_, ?_⟩
      · simp [deleteMessage, hfind₂, hb]
      · intro x hx hid
        exact (mem_markDeleted (markDeleted store mid now) mid now₂ x hx hid).1

/-- Witness for C4: user 9 cannot delete message 0 of user 5; user 5 can,
and can repeat the delete with the flag remaining set. -/
theorem c4_delete_owner_only_witness :
    (deleteMessage (some 9) 0 [mA] 11 =
      .error "You can only delete your own messages")
    ∧ (deleteMessage (some 5) 0 [mA] 11 = .ok (markDeleted [mA] 0 11)
      ∧ (∀ x ∈ markDeleted [mA] 0 11, x.id = 0 →
          x.deleted = true ∧ x.deletedAt = some 11)
      ∧ ∀ now₂, ∃ store₂,
          deleteMessage (some 5) 0 (markDeleted [mA] 0 11) now₂ = .ok store₂
          ∧ ∀ x ∈ store₂, x.id = 0 → x.deleted = true) := by
  constructor
  · exact (c4_delete_owner_only 9 0 11 [mA] mA (by decide)).1 (by decide)
  · exact (c4_delete_owner_only 5 0 11 [mA] mA (by decide)).2 (by decide)

/-! ## History lemmas -/

theorem mem_insertDesc {x m : ChatMessage} {l : List ChatMessage} :
    x ∈ insertDesc m l ↔ x = m ∨ x ∈ l := by
  induction l with
  | nil => simp [insertDesc]
  | cons y ys ih =>
    unfold insertDesc
    by_cases h : m.createdAt ≤ y.createdAt
    · rw [if_pos h]
      simp only [List.mem_cons, ih, List.mem_cons]
      tauto
    · rw [if_neg h]
      simp only [List.mem_cons]

theorem pairwise_insertDesc (m : ChatMessage) (l : List ChatMessage)
    (hl : l.Pairwise (fun a b => b.createdAt ≤ a.createdAt)) :
    (insertDesc m l).Pairwise (fun a b => b.createdAt ≤ a.createdAt) := by
  induction l with
  | nil => simp [insertDesc]
  | cons y ys ih =>
    rcases List.pairwise_cons.mp hl with ⟨hy, hys⟩
    unfold insertDesc
    by_cases h : m.createdAt ≤ y.createdAt
    · rw [if_pos h]
      refine List.pairwise_cons.mpr ⟨?_, ih hys⟩
      intro z hz
      rcases mem_insertDesc.mp hz with hz' | hz'
      · rw [hz']; exact h
      · exact hy z hz'
    · rw [if_neg h]
      refine List.pairwise_cons.mpr ⟨?_, hl⟩
      intro z hz
      rcases List.mem_cons.mp hz with hz' | hz'
      · rw [hz']; omega
      · exact le_trans (hy z hz') (by omega)

theorem pairwise_sortDesc (l : List ChatMessage) :
    (sortDesc l).Pairwise (fun a b => b.createdAt ≤ a.createdAt) := by
  induction l with
  | nil => simp [sortDesc]
  | cons x xs ih => exact pairwise_insertDesc x (sortDesc xs) ih

theorem mem_sortDesc {x : ChatMessage} {l : List ChatMessage} :
    x ∈ sortDesc l ↔ x ∈ l := by
  induction l with
  | nil => simp [sortDesc]
  | cons y ys ih =>
    show x ∈ insertDesc y (sortDesc ys) ↔ _
    rw [mem_insertDesc, ih]
    simp only [List.mem_cons]

theorem mem_deliveredHistory (store : List ChatMessage) (aid : String)
    (limit : Nat) (before : Option Nat) :
    ∀ m ∈ deliveredHistory store aid limit before,
      m ∈ store ∧ historyFilter aid before m = true := by
  intro m hm
  unfold deliveredHistory getChatHistory at hm
  rw [List.mem_reverse] at hm
  have hm2 : m ∈ sortDesc (store.filter (historyFilter aid before)) :=
    (List.take_sublist _ _).subset hm
  rw [mem_sortDesc] at hm2
  exact ⟨(List.mem_filter.mp hm2).1, (List.mem_filter.mp hm2).2⟩

theorem pairwise_deliveredHistory (store : List ChatMessage) (aid : String)
    (limit : Nat) (before : Option Nat) :
    (deliveredHistory store aid limit before).Pairwise
      (fun a b => a.createdAt ≤ b.createdAt) := by
  unfold deliveredHistory getChatHistory
  rw [List.pairwise_reverse]
  exact List.Pairwise.sublist (List.take_sublist _ _) (pairwise_sortDesc _)

theorem deleteMessage_ok_eq (uid mid now : Nat)
    (store store₂ : List ChatMessage)
    (h : deleteMessage (some uid) mid store now = .ok store₂) :
    store₂ = markDeleted store mid now := by
  unfold deleteMessage at h
  cases hf : findById store mid with
  | none => rw [hf] at h; simp at h
  | some m =>
    rw [hf] at h
    by_cases hb : (m.userId != uid) = true
    · simp [hb] at h
    · simp only [hb, Bool.false_eq_true, if_false] at h
      exact (Except.ok.inj h).symm

/-- C5: every delivered history batch contains only non-deleted,
non-system messages, all created strictly before the cursor when one is
given; the batch is ascending by creation time; and after a successful
soft delete no message with the deleted id appears in any later batch. -/
theorem c5_history_contract (store : List ChatMessage) (aid : String)
    (limit : Nat) (before : Option Nat) :
    (∀ m ∈ deliveredHistory store aid limit before,
      m.deleted = false ∧ m.messageType ≠ "system" ∧
        ∀ b, before = some b → m.createdAt < b)
    ∧ (deliveredHistory store aid limit before).Pairwise
        (fun a b => a.createdAt ≤ b.createdAt)
    ∧ (∀ (u mid now : Nat) (store₂ : List ChatMessage),
        deleteMessage (some u) mid store now = Except.ok store₂ →
        ∀ m ∈ deliveredHistory store₂ aid limit before, m.id ≠ mid) := by
  refine ⟨?_, pairwise_deliveredHistory store aid limit before, ?_⟩
  · intro m hm
    have hf := (mem_deliveredHistory store aid limit before m hm).2
    unfold historyFilter at hf
    simp only [Bool.and_eq_true] at hf
    obtain ⟨⟨⟨_, h2⟩, h3⟩, h4⟩ := hf
    refine ⟨by simpa using h2, by simpa using h3, ?_⟩
    intro b hb
    rw [hb] at h4
    simpa using h4
  · intro u mid now store₂ hdel m hm hid
    have heq := deleteMessage_ok_eq u mid now store store₂ hdel
    subst heq
    have hmem := (mem_deliveredHistory _ aid limit before m hm).1
    have hfil := (mem_deliveredHistory _ aid limit before m hm).2
    have hdel' := (mem_markDeleted store mid now m hmem hid).1
    unfold historyFilter at hfil
    simp only [Bool.and_eq_true] at hfil
    have hfalse : m.deleted = false := by simpa using hfil.1.1.2
    rw [hdel'] at hfalse
    cases hfalse

/-- Witness for C5: the history contract evaluated on a store holding an
ordinary, a soft-deleted, a system and a later ordinary message. -/
theorem c5_history_contract_witness :
    (∀ m ∈ deliveredHistory [mA, mDel, mSys, mB] "a1" 50 (some 100),
      m.deleted = false ∧ m.messageType ≠ "system" ∧
        ∀ b, (some 100 : Option Nat) = some b → m.createdAt < b)
    ∧ (deliveredHistory [mA, mDel, mSys, mB] "a1" 50 (some 100)).Pairwise
        (fun a b => a.createdAt ≤ b.createdAt)
    ∧ (∀ (u mid now : Nat) (store₂ : List ChatMessage),
        deleteMessage (some u) mid [mA, mDel, mSys, mB] now =
          Except.ok store₂ →
        ∀ m ∈ deliveredHistory store₂ "a1" 50 (some 100), m.id ≠ mid) :=
  c5_history_contract [mA, mDel, mSys, mB] "a1" 50 (some 100)

/-- C2 (amended): every `activeUsers` broadcast carries the size of the
live membership read at the moment of the broadcast; on a join that read
happens after the joiner is added, but on a leave it happens before the
leaver is removed, so the leave broadcast still counts the leaver (the
membership itself then drops by the leaver). -/
theorem c2_occupancy_at_broadcast (s : RoomState) (c : Nat) (t r : String) :
    occupancyCounts (joinAsteroid s c t).2 =
      [((joinAsteroid s c t).1.members t).length]
    ∧ (s.currentRoom c = some r →
        occupancyCounts (leaveAsteroid s c).2 = [(s.members r).length]
        ∧ (leaveAsteroid s c).1.members r =
            (s.members r).filter (fun x => x ≠ c)) := by
  constructor
  · simp [joinAsteroid, occupancyCounts]
  · intro hcr
    constructor
    · simp [leaveAsteroid, hcr, occupancyCounts]
    · simp [leaveAsteroid, hcr]

/-- Witness for C2 (amended): connection 3 joining room "r0" of `rs1`
yields a broadcast equal to the live size after the join; connection 1
(whose current room is "r0") leaving yields a broadcast equal to the live
size before its removal. -/
theorem c2_occupancy_at_broadcast_witness :
    (occupancyCounts (joinAsteroid rs1 3 "r0").2 =
      [((joinAsteroid rs1 3 "r0").1.members "r0").length])
    ∧ (occupancyCounts (leaveAsteroid rs1 1).2 = [(rs1.members "r0").length]
       ∧ (leaveAsteroid rs1 1).1.members "r0" =
           (rs1.members "r0").filter (fun x => x ≠ 1)) :=
  ⟨(c2_occupancy_at_broadcast rs1 3 "r0" "r0").1,
   (c2_occupancy_at_broadcast rs1 1 "t0" "r0").2 (by decide)⟩

/-- Counterexample to C2 as stated: starting from the empty room state,
connection 1 joins room "a" (N = 1) and then leaves it (M = 1); the
occupancy update broadcast during the leave reports 1, not N − M = 0,
even though the live membership after the leave is indeed 0. -/
theorem c2_counterexample :
    occupancyCounts (leaveAsteroid (joinAsteroid rs0 1 "a").1 1).2 = [1]
    ∧ ((leaveAsteroid (joinAsteroid rs0 1 "a").1 1).1.members "a").length = 0
    ∧ (1 : Nat) ≠ 1 - 1 := by
  refine ⟨by decide, by decide, by decide⟩

/-- C9 (amended): `startTyping`/`stopTyping` from an authenticated
connection with a current room are fanned out to every other member of
that room and to no one else; a guest connection or a connection without
a room produces no typing fan-out at all; and a successful send emits only
the `newMessage` broadcast — no typing-stopped notification. -/
theorem c9_typing_fanout (c u : Nat) (r : String) (m : ChatMessage) :
    typingEvents (some r) (some u) c =
      [{ target := .toRoomExcept r c, name := "userTyping", count := none }]
    ∧ stopTypingEvents (some r) (some u) c =
      [{ target := .toRoomExcept r c, name := "userStoppedTyping",
         count := none }]
    ∧ typingEvents (some r) none c = []
    ∧ stopTypingEvents (some r) none c = []
    ∧ typingEvents none (some u) c = []
    ∧ sendMessageEvents c (.ok m) =
        [{ target := .toRoom m.asteroidId, name := "newMessage",
           count := none }]
    ∧ ∀ e ∈ sendMessageEvents c (Except.ok m),
        e.name ≠ "userStoppedTyping" := by
  refine ⟨rfl, rfl, rfl, rfl, rfl, rfl, ?_⟩
  intro e he
  rcases List.mem_singleton.mp he with rfl
  simp

/-- Witness for C9 (amended): evaluated for connection 1, user 7, room
"r0" and the stored message `mA`. -/
theorem c9_typing_fanout_witness :
    typingEvents (some "r0") (some 7) 1 =
      [{ target := .toRoomExcept "r0" 1, name := "userTyping",
         count := none }]
    ∧ stopTypingEvents (some "r0") (some 7) 1 =
      [{ target := .toRoomExcept "r0" 1, name := "userStoppedTyping",
         count := none }]
    ∧ typingEvents (some "r0") none 1 = []
    ∧ stopTypingEvents (some "r0") none 1 = []
    ∧ typingEvents none (some 7) 1 = []
    ∧ sendMessageEvents 1 (.ok mA) =
        [{ target := .toRoom mA.asteroidId, name := "newMessage",
           count := none }]
    ∧ ∀ e ∈ sendMessageEvents 1 (Except.ok mA),
        e.name ≠ "userStoppedTyping" :=
  c9_typing_fanout 1 7 "r0" mA

/-- Counterexample to C9 as stated: a successful send emits no
"userStoppedTyping" event to the room (so the other members are never
notified that the sender stopped typing), and a guest connection inside a
room gets no typing fan-out at all. -/
theorem c9_counterexample :
    (sendMessage (some 7) "alice" none (some "a1") (some "n1") none
        (some "hello") none 3 9 (fun _ => true)).isOk = true
    ∧ (sendMessageEvents 7 (sendMessage (some 7) "alice" none (some "a1")
        (some "n1") none (some "hello") none 3 9 (fun _ => true))).filter
        (fun e => e.name == "userStoppedTyping") = []
    ∧ typingEvents (some "r0") none 2 = [] := by
  exact ⟨rfl, rfl, rfl⟩

/-- C10: when a connection joins topic `t` while being a member of a
different room `r`, it is silently removed from `r`: afterwards it is no
longer a member of `r`, no event of the join is addressed to `r`, and no
"userLeft" announcement is emitted at all. -/
theorem c10_room_switch_silent (s : RoomState) (c : Nat) (r t : String)
    (hrt : r ≠ t) :
    c ∉ (joinAsteroid s c t).1.members r
    ∧ (∀ e ∈ (joinAsteroid s c t).2, eventRoom e ≠ some r)
    ∧ (∀ e ∈ (joinAsteroid s c t).2, e.name ≠ "userLeft") := by
  refine ⟨?_, ?_, ?_⟩
  · simp only [joinAsteroid]
    rw [if_neg hrt, if_neg hrt]
    intro hc
    rcases List.mem_filter.mp hc with ⟨_, hcc⟩
    simp at hcc
  · intro e he
    simp only [joinAsteroid, List.mem_cons, List.not_mem_nil, or_false] at he
    rcases he with rfl | rfl | rfl <;>
      simp [eventRoom] <;> exact fun h => hrt h.symm
  · intro e he
    simp only [joinAsteroid, List.mem_cons, List.not_mem_nil, or_false] at he
    rcases he with rfl | rfl | rfl <;> simp

/-- Witness for C10: connection 1, a member of "r0" in `rs1`, joins
"t0". -/
theorem c10_room_switch_silent_witness :
    1 ∉ (joinAsteroid rs1 1 "t0").1.members "r0"
    ∧ (∀ e ∈ (joinAsteroid rs1 1 "t0").2, eventRoom e ≠ some "r0")
    ∧ (∀ e ∈ (joinAsteroid rs1 1 "t0").2, e.name ≠ "userLeft") :=
  c10_room_switch_silent rs1 1 "r0" "t0" (by decide)

end AsteroidChat
